import Mathlib

/-!
Verification of the semantic cache with TTL (RAGManager, src/utils/rag_manager.py)
and the URL-validation boundary of the web summarizer (src/tools/web_explorer.py).

Modelling conventions:
- Machine time is an integer number of seconds (datetime values and now());
  the days attribute of a Python timedelta is floor division by 86400 seconds.
- Date strings are abstracted by the inductive DateStr, classifying a Python
  string by the only two observations the code makes of it: truthiness
  (the test checks if not creation_date, so the empty string is falsy) and
  datetime.fromisoformat (either a timestamp or a ValueError).
- The embedding provider is an explicit fallible function String to vector
  (Except models a raised exception); the vector type V is a parameter.
- The langchain FAISS vector store is modelled as a list of
  (vector, document) pairs. add_documents embeds the
  page_content of each document and appends; similarity_search embeds the query and returns
  the k entries of smallest distance, earliest-inserted first among ties
  (stable sort), as an exact flat index does.
-/

/-- Models a Python string in a creation_date position, abstracted by the two
observations the code makes: truthiness and ISO-8601 parsing. valid t is a
non-empty string parsing to timestamp t (seconds); invalid is a non-empty
string on which fromisoformat raises; empty is the empty string. -/
inductive DateStr where
  | valid (t : Int)
  | invalid
  | empty
deriving DecidableEq

/-- Models datetime.fromisoformat: a timestamp on success, none for the
ValueError cases (both the empty string and any other unparseable string). -/
def fromisoformat : DateStr → Option Int
  | .valid t => some t
  | .invalid => none
  | .empty => none

/-- Python truthiness of the underlying string: only the empty string is falsy. -/
def DateStr.truthy : DateStr → Bool
  | .empty => false
  | _ => true

/-- Python truthiness of an Optional[str]: None and the empty string are falsy. -/
def strTruthy : Option String → Bool
  | none => false
  | some s => !(s == "")

/-- Python str.lower, modelled as character-wise lowercasing over the characters
of the string (adequate for the ASCII names this code compares). -/
def pyLower (s : String) : String :=
  ⟨s.data.map Char.toLower⟩

/-- Python substring containment (needle in haystack) on lists of characters. -/
def listContains (needle : List Char) : List Char → Bool
  | [] => needle.isEmpty
  | c :: rest => needle.isPrefixOf (c :: rest) || listContains needle rest

/-- Python substring containment on strings: pyIn needle hay models
needle in hay. -/
def pyIn (needle hay : String) : Bool :=
  listContains needle.data hay.data

/-- Metadata dictionary of a langchain Document, with the keys this
repository reads or writes; absent keys are none (dict.get semantics). -/
structure Metadata where
  type : Option String
  brewery_name : Option String
  url : Option String
  brewery_type : Option String
  creation_date : Option DateStr
deriving DecidableEq

/-- A langchain Document: page content plus metadata. -/
structure Document where
  page_content : String
  metadata : Metadata
deriving DecidableEq

/-- The langchain FAISS vector store (external dependency of rag_manager.py):
an embedding function, a distance on vectors (smaller is more similar, as
with L2 on a flat index), and the stored (vector, document) pairs in
insertion order. -/
structure VectorStore (V : Type) where
  embed : String → Except String V
  dist : V → V → Nat
  docs : List (V × Document)

/-- Stable insertion of x into a list sorted by key ascending: x goes before
the first element of strictly larger or equal key it meets from the right,
keeping earlier elements first among equal keys. -/
def insertSorted (key : α → Nat) (x : α) : List α → List α
  | [] => [x]
  | y :: ys => if key x ≤ key y then x :: y :: ys else y :: insertSorted key x ys

/-- Stable sort by a Nat-valued key, ascending. -/
def sortByKey (key : α → Nat) : List α → List α
  | [] => []
  | x :: xs => insertSorted key x (sortByKey key xs)

/-- Models FAISS similarity_search(query, k): embed the query (propagating an
embedding failure as a raised exception) and return the k nearest stored
documents by distance, most similar first. -/
def similaritySearch (vs : VectorStore V) (query : String) (k : Nat) :
    Except String (List Document) :=
  match vs.embed query with
  | .error e => .error e
  | .ok qv =>
      .ok (((sortByKey (fun p => vs.dist qv p.1) vs.docs).map Prod.snd).take k)

/-- Models langchain embedding of a batch of documents: the page_content
of each document is embedded; any failure aborts the whole call. -/
def embedAll (embed : String → Except String V) : List Document → Except String (List (V × Document))
  | [] => .ok []
  | d :: ds =>
      match embed d.page_content with
      | .error e => .error e
      | .ok v =>
          match embedAll embed ds with
          | .error e => .error e
          | .ok rest => .ok ((v, d) :: rest)

/-- Models FAISS add_documents: embed every page_content and append the new
(vector, document) pairs to the store. -/
def addDocuments (vs : VectorStore V) (newDocs : List Document) :
    Except String (VectorStore V) :=
  match embedAll vs.embed newDocs with
  | .error e => .error e
  | .ok pairs => .ok { vs with docs := vs.docs ++ pairs }

/-- State of a RAGManager (src/utils/rag_manager.py): configured index path,
TTL in days, and the owned vector store. -/
structure RAGManager (V : Type) where
  index_path : String
  ttl_days : Int
  vectorstore : VectorStore V

/-- The bootstrap document created by _load_or_create_index when no persisted
index exists (rag_manager.py lines 92-95). -/
def dummyDoc (now : Int) : Document :=
  { page_content := "initialization"
  , metadata :=
      { type := some "system"
      , brewery_name := none
      , url := none
      , brewery_type := none
      , creation_date := some (.valid now) } }

/-- Models the fresh-creation branch of _load_or_create_index composed with
__init__: no persisted index exists at the path, so FAISS.from_documents
builds a store holding exactly the bootstrap document (its page content
"initialization" is embedded); an embedding failure propagates as a raised
exception out of the constructor. -/
def freshRAGManager (index_path : String) (ttl_days : Int)
    (embed : String → Except String V) (dist : V → V → Nat) (now : Int) :
    Except String (RAGManager V) :=
  match embed "initialization" with
  | .error e => .error e
  | .ok v =>
      .ok { index_path := index_path
          , ttl_days := ttl_days
          , vectorstore := { embed := embed, dist := dist, docs := [(v, dummyDoc now)] } }

/-- Models _is_cache_valid (rag_manager.py lines 101-124): parse the ISO date
string; valid when the age in whole days (timedelta days, i.e. floor of the
difference by 86400 seconds) is at most ttl_days; a parse failure is caught
and reported as invalid. -/
def isCacheValid (m : RAGManager V) (now : Int) (cd : DateStr) : Bool :=
  match fromisoformat cd with
  | some creation_date => Int.fdiv (now - creation_date) 86400 ≤ m.ttl_days
  | none => false

/-- The result dictionary search_cache builds from the top document
(rag_manager.py lines 172-189); summary is the page content of the document. -/
structure CacheResult where
  brewery_name : Option String
  url : Option String
  summary : String
  brewery_type : Option String
  creation_date : DateStr
deriving DecidableEq

/-- Models search_cache (rag_manager.py lines 126-194). Any failure inside
the body (in this model, an embedding failure during similarity search) is
caught and returned as (None, CACHE_MISS). Otherwise: empty results or a
system-typed top document give CACHE_MISS; a supplied truthy brewery_name
whose lowercasing is not a substring of the lowercased stored name
of the top document gives CACHE_MISS; a falsy creation_date gives (None, CACHE_STALE); an
expired or unparseable creation_date gives the result with CACHE_STALE; and
otherwise the result with CACHE_HIT. -/
def searchCache (m : RAGManager V) (now : Int) (query : String) (top_k : Nat)
    (brewery_name : Option String) : Option CacheResult × String :=
  match similaritySearch m.vectorstore query top_k with
  | .error _ => (none, "CACHE_MISS")
  | .ok docs =>
      match docs with
      | [] => (none, "CACHE_MISS")
      | top_doc :: _ =>
          if top_doc.metadata.type == some "system" then (none, "CACHE_MISS")
          else if strTruthy brewery_name
              && !(pyIn (pyLower (brewery_name.getD ""))
                    (pyLower (top_doc.metadata.brewery_name.getD ""))) then
            (none, "CACHE_MISS")
          else
            match top_doc.metadata.creation_date with
            | none => (none, "CACHE_STALE")
            | some cd =>
                if !(cd.truthy) then (none, "CACHE_STALE")
                else
                  let result : CacheResult :=
                    { brewery_name := top_doc.metadata.brewery_name
                    , url := top_doc.metadata.url
                    , summary := top_doc.page_content
                    , brewery_type := top_doc.metadata.brewery_type
                    , creation_date := cd }
                  if !(isCacheValid m now cd) then (result, "CACHE_STALE")
                  else (result, "CACHE_HIT")

/-- The document add_to_cache constructs (rag_manager.py lines 217-226):
page content is the summary; the name, url, type and creation time are
metadata only. -/
def breweryDoc (now : Int) (brewery_name url summary brewery_type : String) : Document :=
  { page_content := summary
  , metadata :=
      { type := some "brewery_summary"
      , brewery_name := some brewery_name
      , url := some url
      , brewery_type := some brewery_type
      , creation_date := some (.valid now) } }

/-- Models add_to_cache (rag_manager.py lines 196-236): build the document
and add it to the vector store; any failure is caught and reported as false
with the state unchanged. -/
def addToCache (m : RAGManager V) (now : Int)
    (brewery_name url summary brewery_type : String) : Bool × RAGManager V :=
  match addDocuments m.vectorstore [breweryDoc now brewery_name url summary brewery_type] with
  | .error _ => (false, m)
  | .ok vs => (true, { m with vectorstore := vs })

/-- Models update_cache_entry (rag_manager.py lines 238-262): delegates to
add_to_cache unchanged (FAISS has no in-place update). -/
def updateCacheEntry (m : RAGManager V) (now : Int)
    (brewery_name url summary brewery_type : String) : Bool × RAGManager V :=
  addToCache m now brewery_name url summary brewery_type

/-- Models save_index (rag_manager.py lines 264-277): the outcome of the
external save_local disk write is an input; an exception is caught and
reported as false. -/
def saveIndex (_ : RAGManager V) (saveResult : Except String Unit) : Bool :=
  match saveResult with
  | .ok _ => true
  | .error _ => false

/-- The statistics dictionary of get_cache_stats. -/
structure CacheStats where
  total_entries : Nat
  valid_entries : Nat
  stale_entries : Nat
  ttl_days : Int
  index_path : String
deriving DecidableEq

/-- The all-zero statistics returned from the exception handler of
get_cache_stats (rag_manager.py lines 312-320). -/
def emptyStats (m : RAGManager V) : CacheStats :=
  { total_entries := 0, valid_entries := 0, stale_entries := 0
  , ttl_days := m.ttl_days, index_path := m.index_path }

/-- The per-document validity test of the statistics loop (rag_manager.py
lines 298-302): creation_date truthy and within TTL. -/
def docIsValidEntry (m : RAGManager V) (now : Int) (d : Document) : Bool :=
  match d.metadata.creation_date with
  | none => false
  | some cd => cd.truthy && isCacheValid m now cd

/-- Models get_cache_stats (rag_manager.py lines 279-320): sample the index
with a broad similarity search (query brewery, k = 100), count the
brewery_summary documents and classify each as valid or stale; any failure
is caught and yields the all-zero statistics. -/
def getCacheStats (m : RAGManager V) (now : Int) : CacheStats :=
  match similaritySearch m.vectorstore "brewery" 100 with
  | .error _ => emptyStats m
  | .ok all_docs =>
      let summaries := all_docs.filter (fun d => d.metadata.type == some "brewery_summary")
      { total_entries := summaries.length
      , valid_entries := (summaries.filter (fun d => docIsValidEntry m now d)).length
      , stale_entries := (summaries.filter (fun d => !(docIsValidEntry m now d))).length
      , ttl_days := m.ttl_days
      , index_path := m.index_path }

/-- A URL string together with the scheme and network-location components that
the Python standard library urlparse (external to the repository) extracts
from it. -/
structure PyUrl where
  raw : String
  scheme : String
  netloc : String

/-- Models _is_valid_url (web_explorer.py lines 97-111): all of the parsed
scheme and netloc must be truthy, i.e. non-empty. -/
def isValidUrl (u : PyUrl) : Bool :=
  !(u.scheme == "") && !(u.netloc == "")

/-- The dictionary get_website_summary returns; execution_time_ms, a
wall-clock measurement, is omitted from the model. -/
structure WebSummaryResult where
  brewery_name : String
  url : String
  summary : String
  source : String
  cache_status : String
  brewery_type : String
  error : Option String
deriving DecidableEq

/-- A cache operation performed by the web explorer, recorded in order so the
model can state which cache interactions a call makes. -/
inductive CacheOp where
  | lookup
  | insert
  | persist
deriving DecidableEq

/-- Models get_website_summary (web_explorer.py lines 201-312). Inputs beyond
the Python arguments: now (wall clock), grounded (the outcome of the external
_grounded_search_summary call, none when it fails), and saveResult (the
outcome of the external disk write). Returns the result dictionary, the
updated cache state, and the list of cache operations performed. An invalid
or empty URL short-circuits with INVALID_URL before any cache interaction;
a hit returns the cached summary; a falsy grounded summary gives
GROUNDING_FAILED; otherwise the fresh summary is cached (and persisted when
the cache write succeeds) and returned. -/
def getWebsiteSummary (m : RAGManager V) (now : Int) (brewery_name : String)
    (url : PyUrl) (brewery_type : String) (grounded : Option String)
    (saveResult : Except String Unit) :
    WebSummaryResult × RAGManager V × List CacheOp :=
  if url.raw == "" || !(isValidUrl url) then
    ({ brewery_name := brewery_name
     , url := if url.raw == "" then "N/A" else url.raw
     , summary := "Website URL não disponível ou inválido."
     , source := "error"
     , cache_status := "N/A"
     , brewery_type := brewery_type
     , error := some "INVALID_URL" }, m, [])
  else
    match searchCache m now brewery_name 1 (some brewery_name) with
    | (cached_result, cache_status) =>
        if cache_status == "CACHE_HIT" && cached_result.isSome then
          ({ brewery_name := brewery_name
           , url := url.raw
           , summary := (cached_result.map (fun c => c.summary)).getD ""
           , source := "cache_hit"
           , cache_status := cache_status
           , brewery_type := brewery_type
           , error := none }, m, [.lookup])
        else
          match grounded with
          | none =>
              ({ brewery_name := brewery_name
               , url := url.raw
               , summary := "Não foi possível gerar resumo para " ++ brewery_name
                   ++ " via Gemini Grounding"
               , source := "web_search"
               , cache_status := cache_status
               , brewery_type := brewery_type
               , error := some "GROUNDING_FAILED" }, m, [.lookup])
          | some summary =>
              if summary == "" then
                ({ brewery_name := brewery_name
                 , url := url.raw
                 , summary := "Não foi possível gerar resumo para " ++ brewery_name
                     ++ " via Gemini Grounding"
                 , source := "web_search"
                 , cache_status := cache_status
                 , brewery_type := brewery_type
                 , error := some "GROUNDING_FAILED" }, m, [.lookup])
              else if cache_status == "CACHE_MISS" || cache_status == "CACHE_STALE" then
                match addToCache m now brewery_name url.raw summary brewery_type with
                | (cache_updated, m2) =>
                    if cache_updated then
                      let _ := saveIndex m2 saveResult
                      ({ brewery_name := brewery_name
                       , url := url.raw
                       , summary := summary
                       , source := "web_search"
                       , cache_status := cache_status
                       , brewery_type := brewery_type
                       , error := none }, m2,
                       [.lookup, .insert, .persist])
                    else
                      ({ brewery_name := brewery_name
                       , url := url.raw
                       , summary := summary
                       , source := "web_search"
                       , cache_status := cache_status
                       , brewery_type := brewery_type
                       , error := none }, m2, [.lookup, .insert])
              else
                ({ brewery_name := brewery_name
                 , url := url.raw
                 , summary := summary
                 , source := "web_search"
                 , cache_status := cache_status
                 , brewery_type := brewery_type
                 , error := none }, m, [.lookup])

/-- A concrete embedding provider used in witnesses: the length of the text,
always succeeding. -/
def lenEmbed : String → Except String Nat := fun s => .ok s.length

/-- A concrete distance on the length embedding: absolute difference. -/
def natDist : Nat → Nat → Nat := fun a b => Nat.dist a b

/-- A concrete RAGManager over the length embedding with the given stored
pairs and TTL. -/
def mkLenManager (docs : List (Nat × Document)) (ttl : Int) : RAGManager Nat :=
  { index_path := "data/faiss_index"
  , ttl_days := ttl
  , vectorstore := { embed := lenEmbed, dist := natDist, docs := docs } }

/-- The freshly constructed manager over the length embedding: exactly the
bootstrap document, whose page content has length 14. -/
def mFresh : RAGManager Nat := mkLenManager [(14, dummyDoc 0)] 30

/-- A stored entry used in several witnesses: a brewery summary inserted at
time 0 under the name test brewery. -/
def dStored : Document := breweryDoc 0 "test brewery" "https://t.com" "a tasty test summary" "micro"

/-- A one-entry cache over the length embedding holding dStored (its page
content has length 20), TTL 30 days. -/
def mStored : RAGManager Nat := mkLenManager [(20, dStored)] 30

/-- Helper: the empty needle is a substring of every haystack, as in Python. -/
theorem listContains_nil (l : List Char) : listContains [] l = true := by
  cases l <;> rfl

/-- Helper: every list is a prefix of itself. -/
theorem isPrefixOf_self (l : List Char) : l.isPrefixOf l = true := by
  induction l with
  | nil => rfl
  | cons c t ih => simp [List.isPrefixOf, ih]

/-- Helper: Python substring containment is reflexive. -/
theorem pyIn_self (s : String) : pyIn s s = true := by
  unfold pyIn
  cases h : s.data with
  | nil => rfl
  | cons c t => simp [listContains, isPrefixOf_self]

/-- Helper: add_to_cache never changes the configured TTL. -/
theorem addToCache_ttl (m : RAGManager V) (now : Int) (n u s b : String) :
    (addToCache m now n u s b).2.ttl_days = m.ttl_days := by
  unfold addToCache
  cases h : addDocuments m.vectorstore [breweryDoc now n u s b] <;> rfl

/-- Claim C2: when the top-ranked entry passes the name filter and carries a
parseable created_at timestamp t, search_cache classifies by age in whole
days: the entry is returned together with CACHE_HIT when the age is at most
ttl_days and with CACHE_STALE (entry still non-null) otherwise. -/
theorem C2_ttl_age_classification {V : Type} (m : RAGManager V) (now t : Int)
    (query : String) (k : Nat) (bn : Option String) (d : Document)
    (rest : List Document)
    (h1 : similaritySearch m.vectorstore query k = .ok (d :: rest))
    (h2 : (d.metadata.type == some "system") = false)
    (h3 : (strTruthy bn
        && !(pyIn (pyLower (bn.getD "")) (pyLower (d.metadata.brewery_name.getD "")))) = false)
    (h4 : d.metadata.creation_date = some (.valid t)) :
    searchCache m now query k bn =
      (some { brewery_name := d.metadata.brewery_name
            , url := d.metadata.url
            , summary := d.page_content
            , brewery_type := d.metadata.brewery_type
            , creation_date := .valid t },
       if Int.fdiv (now - t) 86400 ≤ m.ttl_days then "CACHE_HIT" else "CACHE_STALE") := by
  unfold searchCache
  rw [h1]
  simp only [h2, h3, h4, Bool.false_eq_true, if_false, DateStr.truthy, Bool.not_false,
    isCacheValid, fromisoformat]
  by_cases hc : Int.fdiv (now - t) 86400 ≤ m.ttl_days
  · simp [hc]
  · simp [hc]

/-- Witness for C2: with TTL 30 days, the stored entry created at time 0 is a
CACHE_HIT at exactly 30 days (2592000 seconds) and a CACHE_STALE with the
entry still returned at 31 days (2678400 seconds). -/
theorem C2_witness :
    searchCache mStored 2592000 "test brewery" 1 (some "test") =
      (some { brewery_name := some "test brewery", url := some "https://t.com"
            , summary := "a tasty test summary", brewery_type := some "micro"
            , creation_date := .valid 0 }, "CACHE_HIT")
    ∧ searchCache mStored 2678400 "test brewery" 1 (some "test") =
      (some { brewery_name := some "test brewery", url := some "https://t.com"
            , summary := "a tasty test summary", brewery_type := some "micro"
            , creation_date := .valid 0 }, "CACHE_STALE") := by
  constructor
  · have h := C2_ttl_age_classification mStored 2592000 0 "test brewery" 1 (some "test")
      dStored [] rfl (by decide) (by decide) rfl
    rw [if_pos (by decide)] at h
    exact h
  · have h := C2_ttl_age_classification mStored 2678400 0 "test brewery" 1 (some "test")
      dStored [] rfl (by decide) (by decide) rfl
    rw [if_neg (by decide)] at h
    exact h

/-- Claim C3: when a truthy subject name is supplied, the match test is that
the lowercased query name occurs as a substring of the lowercased stored
name of the top-ranked entry only; when it fails the result is
(None, CACHE_MISS), with no dependence on any lower-ranked neighbor (the
tail of the search result is universally quantified). -/
theorem C3_name_filter_mismatch {V : Type} (m : RAGManager V) (now : Int)
    (query : String) (k : Nat) (s : String) (d : Document) (rest : List Document)
    (h1 : similaritySearch m.vectorstore query k = .ok (d :: rest))
    (h2 : (d.metadata.type == some "system") = false)
    (h3 : pyIn (pyLower s) (pyLower (d.metadata.brewery_name.getD "")) = false) :
    searchCache m now query k (some s) = (none, "CACHE_MISS") := by
  have hs : (s == "") = false := by
    cases hse : s == "" with
    | false => rfl
    | true =>
        have hseq : s = "" := by simpa using hse
        subst hseq
        rw [show pyLower "" = "" from rfl] at h3
        rw [show pyIn "" (pyLower (d.metadata.brewery_name.getD ""))
              = listContains [] (pyLower (d.metadata.brewery_name.getD "")).data from rfl] at h3
        rw [listContains_nil] at h3
        exact absurd h3 (by simp)
  unfold searchCache
  rw [h1]
  simp [h2, strTruthy, hs, h3]

/-- Witness for C3: the stored name test brewery does not contain the query
name test brewery extra words, so the lookup misses even though that entry
ranks first (reverse-direction containment is not consulted). -/
theorem C3_witness :
    searchCache mStored 0 "test brewery" 1 (some "test brewery extra words") =
      (none, "CACHE_MISS") :=
  C3_name_filter_mismatch mStored 0 "test brewery" 1 "test brewery extra words"
    dStored [] rfl (by decide) (by decide)

/-- Claim C4: when the top-ranked entry passes the name filter but its
metadata has no created_at field, search_cache returns exactly
(None, CACHE_STALE): stale status and no entry at all. -/
theorem C4_missing_created_at {V : Type} (m : RAGManager V) (now : Int)
    (query : String) (k : Nat) (bn : Option String) (d : Document)
    (rest : List Document)
    (h1 : similaritySearch m.vectorstore query k = .ok (d :: rest))
    (h2 : (d.metadata.type == some "system") = false)
    (h3 : (strTruthy bn
        && !(pyIn (pyLower (bn.getD "")) (pyLower (d.metadata.brewery_name.getD "")))) = false)
    (h4 : d.metadata.creation_date = none) :
    searchCache m now query k bn = (none, "CACHE_STALE") := by
  unfold searchCache
  rw [h1]
  simp [h2, h3, h4]

/-- A stored entry whose metadata lacks the created_at key. -/
def dNoDate : Document :=
  { page_content := "summary without date"
  , metadata :=
      { type := some "brewery_summary"
      , brewery_name := some "no date brewing"
      , url := some "https://nodate.com"
      , brewery_type := some "micro"
      , creation_date := none } }

/-- A one-entry cache holding dNoDate (page content length 20). -/
def mNoDate : RAGManager Nat := mkLenManager [(20, dNoDate)] 30

/-- Witness for C4: looking up the entry without a created_at field yields a
null entry with CACHE_STALE. -/
theorem C4_witness :
    searchCache mNoDate 0 "no date brewing" 1 (some "no date") = (none, "CACHE_STALE") :=
  C4_missing_created_at mNoDate 0 "no date brewing" 1 (some "no date") dNoDate []
    rfl (by decide) (by decide) rfl

/-- A stored entry whose created_at key is present but holds the empty
string: truthiness-wise falsy in Python, yet present and unparseable. -/
def dEmptyDate : Document :=
  { page_content := "old summary"
  , metadata :=
      { type := some "brewery_summary"
      , brewery_name := some "stone brewing"
      , url := some "https://stone.com"
      , brewery_type := some "micro"
      , creation_date := some .empty } }

/-- A one-entry cache holding dEmptyDate (page content length 11). -/
def mEmptyDate : RAGManager Nat := mkLenManager [(11, dEmptyDate)] 30

/-- Counterexample to claim C10 as stated: the top entry passes the name
filter and carries a created_at value that is present (the empty string) and
not parseable as ISO-8601, yet the result is (None, CACHE_STALE) with a null
entry, because the code tests Python truthiness of the value before ever
trying to parse it. -/
theorem C10_counterexample :
    dEmptyDate.metadata.creation_date = some DateStr.empty
    ∧ fromisoformat DateStr.empty = none
    ∧ searchCache mEmptyDate 0 "stone brewing" 1 (some "stone") = (none, "CACHE_STALE") := by
  refine ⟨rfl, rfl, by decide⟩

/-- Claim C10 amended: when the top entry passes the name filter and carries
a created_at value that is truthy (non-empty) but not parseable as ISO-8601,
the parse failure is caught, the entry is classified invalid, and the result
is (entry, CACHE_STALE) with the entry returned non-null; a present but
empty created_at instead behaves like the missing case (None, CACHE_STALE). -/
theorem C10_unparseable_created_at {V : Type} (m : RAGManager V) (now : Int)
    (query : String) (k : Nat) (bn : Option String) (d : Document)
    (rest : List Document)
    (h1 : similaritySearch m.vectorstore query k = .ok (d :: rest))
    (h2 : (d.metadata.type == some "system") = false)
    (h3 : (strTruthy bn
        && !(pyIn (pyLower (bn.getD "")) (pyLower (d.metadata.brewery_name.getD "")))) = false)
    (h4 : d.metadata.creation_date = some .invalid) :
    searchCache m now query k bn =
      (some { brewery_name := d.metadata.brewery_name
            , url := d.metadata.url
            , summary := d.page_content
            , brewery_type := d.metadata.brewery_type
            , creation_date := .invalid }, "CACHE_STALE") := by
  unfold searchCache
  rw [h1]
  simp [h2, h3, h4, DateStr.truthy, isCacheValid, fromisoformat]

/-- A stored entry whose created_at is a non-empty unparseable string. -/
def dBadDate : Document :=
  { page_content := "old stone summary"
  , metadata :=
      { type := some "brewery_summary"
      , brewery_name := some "stone brewing"
      , url := some "https://stone.com"
      , brewery_type := some "micro"
      , creation_date := some .invalid } }

/-- A one-entry cache holding dBadDate (page content length 17). -/
def mBadDate : RAGManager Nat := mkLenManager [(17, dBadDate)] 30

/-- Witness for the amended C10: a non-empty unparseable created_at yields
CACHE_STALE with the entry returned non-null. -/
theorem C10_witness :
    searchCache mBadDate 0 "stone brewing" 1 (some "stone") =
      (some { brewery_name := some "stone brewing", url := some "https://stone.com"
            , summary := "old stone summary", brewery_type := some "micro"
            , creation_date := .invalid }, "CACHE_STALE") :=
  C10_unparseable_created_at mBadDate 0 "stone brewing" 1 (some "stone") dBadDate []
    rfl (by decide) (by decide) rfl

/-- Counterexample to claim C1 as stated: inserting subject a with summary
bbb into the fresh length-embedding cache stores the vector 3, the embedding
of the summary bbb, and not the vector 1 that embedding the subject name a
would give. -/
theorem C1_counterexample :
    (addToCache mFresh 0 "a" "https://x" "bbb" "micro").2.vectorstore.docs.map Prod.fst
      = [14, 3]
    ∧ lenEmbed "bbb" = .ok 3
    ∧ lenEmbed "a" = .ok 1
    ∧ (3 : Nat) ≠ 1 := by
  refine ⟨by decide, rfl, rfl, by decide⟩

/-- Claim C1 amended: the vector stored for the new entry is the embedding of
the summary (the page content of the inserted document), while the subject
name, url, category and creation time are carried only as metadata; the
summary is both the embedded text and the payload. -/
theorem C1_vector_is_summary_embedding {V : Type} (m : RAGManager V) (now : Int)
    (n u s b : String) (v : V)
    (h : m.vectorstore.embed s = .ok v) :
    addToCache m now n u s b =
      (true, { m with vectorstore :=
        { m.vectorstore with docs := m.vectorstore.docs ++ [(v, breweryDoc now n u s b)] } }) := by
  unfold addToCache addDocuments embedAll
  simp only [show (breweryDoc now n u s b).page_content = s from rfl, h]
  rfl

/-- Witness for the amended C1: inserting the summary sum (length 3) under
the subject stone into the fresh cache appends the pair of the summary
embedding 3 and the constructed document. -/
theorem C1_witness :
    addToCache mFresh 0 "stone" "https://x" "sum" "micro" =
      (true, { mFresh with vectorstore :=
        { mFresh.vectorstore with docs :=
            mFresh.vectorstore.docs ++ [(3, breweryDoc 0 "stone" "https://x" "sum" "micro")] } }) :=
  C1_vector_is_summary_embedding mFresh 0 "stone" "https://x" "sum" "micro" 3 rfl

/-- Claim C5: no public cache operation raises; when the embedding collaborator
fails on the query and on the summary, search_cache returns (None, CACHE_MISS),
add_to_cache and update_cache_entry return False with the state unchanged, and
save_index returns False when the disk write fails. -/
theorem C5_failures_collapse {V : Type} (m : RAGManager V) (now : Int)
    (query n u s b : String) (k : Nat) (bn : Option String) (e1 e2 e3 : String)
    (h1 : m.vectorstore.embed query = .error e1)
    (h2 : m.vectorstore.embed s = .error e2) :
    searchCache m now query k bn = (none, "CACHE_MISS")
    ∧ addToCache m now n u s b = (false, m)
    ∧ updateCacheEntry m now n u s b = (false, m)
    ∧ saveIndex m (.error e3) = false := by
  have hadd : addToCache m now n u s b = (false, m) := by
    unfold addToCache addDocuments embedAll
    simp only [show (breweryDoc now n u s b).page_content = s from rfl, h2]
  refine ⟨?_, hadd, hadd, rfl⟩
  unfold searchCache similaritySearch
  rw [h1]

/-- A cache whose embedding provider always fails. -/
def mErr : RAGManager Nat :=
  { index_path := "data/faiss_index"
  , ttl_days := 30
  , vectorstore := { embed := fun _ => .error "quota", dist := natDist, docs := [(14, dummyDoc 0)] } }

/-- Witness for C5: with the always-failing embedding provider, lookup misses,
insert and refresh report False, and a failing persist reports False. -/
theorem C5_witness :
    searchCache mErr 0 "stone" 1 (some "stone") = (none, "CACHE_MISS")
    ∧ addToCache mErr 0 "stone" "https://x" "sum" "micro" = (false, mErr)
    ∧ updateCacheEntry mErr 0 "stone" "https://x" "sum" "micro" = (false, mErr)
    ∧ saveIndex mErr (.error "disk full") = false :=
  C5_failures_collapse mErr 0 "stone" "stone" "https://x" "sum" "micro" 1 (some "stone")
    "quota" "quota" "disk full" rfl rfl

/-- Claim C8: update_cache_entry is definitionally the same operation as
add_to_cache: for every input it returns the same value and leaves the same
state (both append-only; neither removes any prior entry). -/
theorem C8_refresh_equals_insert {V : Type} (m : RAGManager V) (now : Int)
    (n u s b : String) :
    updateCacheEntry m now n u s b = addToCache m now n u s b := rfl

/-- A summary of length 42, much longer than the subject name used with it. -/
def longSummary : String := "a very long brewery summary text goes here"

/-- Counterexample to claim C6 as stated: under the length embedding, a
successful insert of subject ab with longSummary into the fresh cache is
immediately followed by a lookup of ab that returns (None, CACHE_MISS), not
CACHE_HIT: the stored vector embeds the summary (42), so the query embedding
(2) ranks the bootstrap entry (14) first and the lookup misses. -/
theorem C6_counterexample :
    (addToCache mFresh 0 "ab" "https://x" longSummary "micro").1 = true
    ∧ searchCache (addToCache mFresh 0 "ab" "https://x" longSummary "micro").2
        0 "ab" 1 (some "ab") = (none, "CACHE_MISS") := by
  refine ⟨rfl, by decide⟩

/-- Claim C6 amended: a successful insert followed immediately by a lookup of
the subject name returns (entry, CACHE_HIT) with the entry summary equal to
the inserted summary, provided the similarity search for the subject name
ranks the newly inserted entry first (not guaranteed in general, because the
stored vector embeds the summary rather than the subject name) and the
configured TTL is non-negative. -/
theorem C6_round_trip_when_ranked_first {V : Type} (m m2 : RAGManager V)
    (now : Int) (n u s b : String) (rest : List Document)
    (httl : 0 ≤ m.ttl_days)
    (h0 : addToCache m now n u s b = (true, m2))
    (h1 : similaritySearch m2.vectorstore n 1 = .ok (breweryDoc now n u s b :: rest)) :
    searchCache m2 now n 1 (some n) =
      (some { brewery_name := some n, url := some u, summary := s
            , brewery_type := some b, creation_date := .valid now }, "CACHE_HIT") := by
  have hts : m2.ttl_days = m.ttl_days := by
    have h := addToCache_ttl m now n u s b
    rw [h0] at h
    exact h
  unfold searchCache
  rw [h1]
  have htype : ((some "brewery_summary" : Option String) == some "system") = false := by decide
  have hvalid : isCacheValid m2 now (.valid now) = true := by
    unfold isCacheValid fromisoformat
    simp [hts, sub_self, Int.zero_fdiv, httl]
  simp [breweryDoc, htype, pyIn_self, DateStr.truthy, hvalid]

/-- The state of the fresh length-embedding cache after inserting the subject
abc with the equally short summary xyz. -/
def mRound : RAGManager Nat := (addToCache mFresh 0 "abc" "https://x" "xyz" "micro").2

/-- Witness for the amended C6: with summary xyz (length 3) the query abc
(length 3) ranks the new entry first, and the immediate lookup is a
CACHE_HIT returning the inserted summary. -/
theorem C6_witness :
    searchCache mRound 0 "abc" 1 (some "abc") =
      (some { brewery_name := some "abc", url := some "https://x", summary := "xyz"
            , brewery_type := some "micro", creation_date := .valid 0 }, "CACHE_HIT") :=
  C6_round_trip_when_ranked_first mFresh mRound 0 "abc" "https://x" "xyz" "micro"
    [] (by decide) rfl rfl

/-- Claim C7: when no persisted index exists, construction creates an index
containing exactly one system-kind bootstrap entry with the fixed placeholder
content initialization, so the index is never empty; on this fresh index
every lookup returns (None, CACHE_MISS) because the top entry is system-kind,
and the statistics report zero in every count (system entries are excluded),
matching the all-zero statistics record. -/
theorem C7_bootstrap_invariant {V : Type} (p : String) (ttl : Int)
    (embed : String → Except String V) (dist : V → V → Nat) (now : Int)
    (m : RAGManager V)
    (h : freshRAGManager p ttl embed dist now = .ok m) :
    (∃ v, embed "initialization" = .ok v ∧ m.vectorstore.docs = [(v, dummyDoc now)])
    ∧ (dummyDoc now).metadata.type = some "system"
    ∧ (dummyDoc now).page_content = "initialization"
    ∧ (∀ query k bn now2, searchCache m now2 query k bn = (none, "CACHE_MISS"))
    ∧ (∀ now2, getCacheStats m now2 = emptyStats m) := by
  unfold freshRAGManager at h
  cases he : embed "initialization" with
  | error e => rw [he] at h; cases h
  | ok v =>
      rw [he] at h
      injection h with h2
      subst h2
      refine ⟨⟨v, rfl, rfl⟩, rfl, rfl, ?_, ?_⟩
      · intro query k bn now2
        unfold searchCache similaritySearch
        dsimp only
        cases hq : embed query with
        | error e => rfl
        | ok qv =>
            cases k with
            | zero => rfl
            | succ k2 => rfl
      · intro now2
        unfold getCacheStats similaritySearch
        dsimp only
        cases hb : embed "brewery" with
        | error e => rfl
        | ok qv => rfl

/-- Witness for C7: the concrete fresh cache over the length embedding, built
by freshRAGManager, misses on an arbitrary lookup and reports the all-zero
statistics. -/
theorem C7_witness :
    searchCache mFresh 999 "anything" 1 none = (none, "CACHE_MISS")
    ∧ getCacheStats mFresh 999 = emptyStats mFresh := by
  have h := C7_bootstrap_invariant "data/faiss_index" 30 lenEmbed natDist 0 mFresh rfl
  exact ⟨h.2.2.2.1 "anything" 1 none 999, h.2.2.2.2 999⟩

/-- Claim C9: a summary request whose URL is empty or lacks a scheme or a
host short-circuits with an INVALID_URL error result, leaves the cache state
unchanged, and performs no cache operation at all (neither lookup nor insert
nor persist). -/
theorem C9_invalid_url_no_cache {V : Type} (m : RAGManager V) (now : Int)
    (bn : String) (url : PyUrl) (bt : String) (grounded : Option String)
    (saveResult : Except String Unit)
    (h : url.raw = "" ∨ url.scheme = "" ∨ url.netloc = "") :
    getWebsiteSummary m now bn url bt grounded saveResult =
      ({ brewery_name := bn
       , url := if url.raw == "" then "N/A" else url.raw
       , summary := "Website URL não disponível ou inválido."
       , source := "error"
       , cache_status := "N/A"
       , brewery_type := bt
       , error := some "INVALID_URL" }, m, []) := by
  have hguard : (url.raw == "" || !(isValidUrl url)) = true := by
    rcases h with h | h | h <;> simp [isValidUrl, h]
  unfold getWebsiteSummary
  rw [if_pos hguard]

/-- A URL string with no scheme: urlparse on example.com yields an empty
scheme and an empty network location. -/
def urlNoScheme : PyUrl := { raw := "example.com", scheme := "", netloc := "" }

/-- Witness for C9: requesting a summary for a scheme-less URL returns the
INVALID_URL result with the cache state untouched and no cache operations. -/
theorem C9_witness :
    getWebsiteSummary mFresh 0 "stone" urlNoScheme "micro" (some "fresh summary") (.ok ()) =
      ({ brewery_name := "stone", url := "example.com"
       , summary := "Website URL não disponível ou inválido.", source := "error"
       , cache_status := "N/A", brewery_type := "micro"
       , error := some "INVALID_URL" }, mFresh, []) := by
  have h := C9_invalid_url_no_cache mFresh 0 "stone" urlNoScheme "micro"
    (some "fresh summary") (.ok ()) (Or.inr (Or.inl rfl))
  simpa [urlNoScheme] using h
